import Mathlib

/-!
# Shallow embedding of `src/main.py` (MT5 Real-Time Data Server)

This file embeds the market-state inference, symbol aggregation, connection
retry, history/quote endpoints and the realtime feed loop of `src/main.py`
as executable Lean definitions, and proves the spec claims about them.

Modelling conventions:
* Python floats are modelled as `ℚ` (the claims are about the algorithm, not
  binary rounding); Python's `round(x, 2)` is modelled as rounding to two
  decimal places with ties to even, which is Python's rounding mode.
* Unix timestamps are `Int` (the code forms differences).
* Calls into the external MetaTrader5 terminal are modelled by environment
  records supplying each call's result; endpoints that the claims observe
  making terminal calls also return an explicit call trace.
* MetaTrader5 numeric constants keep their real values.
-/

namespace RTData

/-! ## MetaTrader5 constants used by `src/main.py` -/

def SYMBOL_TRADE_MODE_DISABLED : Nat := 0
def SYMBOL_TRADE_MODE_CLOSEONLY : Nat := 3
def SYMBOL_TRADE_MODE_FULL : Nat := 4
def TRADE_ACTION_DEAL : Nat := 1
def ORDER_TYPE_BUY : Nat := 0
def ORDER_TIME_GTC : Nat := 0
def ORDER_FILLING_IOC : Nat := 1
def TRADE_RETCODE_MARKET_CLOSED : Nat := 10018

/-! ## Data model -/

/-- One row of the snapshot returned by `mt5.symbols_get(group="*")`,
with the fields that `get_available_symbols` and `fetch_realtime_data` read. -/
structure Instrument where
  name : String
  path : String
  description : String
  digits : Nat
  currency_base : String
  currency_profit : String
  bid : ℚ
  ask : ℚ
  last : ℚ
  session_open : ℚ
  session_close : ℚ
  trade_mode : Nat
  time : Int
deriving DecidableEq, Repr

/-- Python's `round` builtin on a rational: nearest integer, ties to even. -/
def roundHalfEven (q : ℚ) : ℤ :=
  let n := ⌊q⌋
  if q - n < 1/2 then n
  else if (1 : ℚ)/2 < q - n then n + 1
  else if n % 2 = 0 then n else n + 1

/-- Python's `round(x, 2)`: round to two decimal places. -/
def round2 (q : ℚ) : ℚ := (roundHalfEven (q * 100) : ℚ) / 100

/-! ## String helpers

Python's `str.split(sep)` for a one-character separator and `str.strip()`,
written by structural recursion over the character list so that the kernel can
evaluate them on concrete inputs. Like Python's `split`, `splitOnChar` always
returns at least one (possibly empty) segment. -/

def splitOnCharAux (c : Char) : List Char → List Char → List (List Char)
  | [], acc => [acc.reverse]
  | x :: xs, acc =>
    if x = c then acc.reverse :: splitOnCharAux c xs []
    else splitOnCharAux c xs (x :: acc)

/-- Python `s.split(c)` for a single-character separator `c`. -/
def splitOnChar (c : Char) (l : List Char) : List (List Char) := splitOnCharAux c l []

/-- Python `s.strip()`: drop leading and trailing whitespace. -/
def stripChars (l : List Char) : List Char :=
  ((l.dropWhile Char.isWhitespace).reverse.dropWhile Char.isWhitespace).reverse

/-! ## Aggregator (`get_available_symbols`, src/main.py lines 213-284) -/

/-- `not s.name or s.name.strip() == ""`: the filter applied at line 234. -/
def isEmptyName (s : Instrument) : Bool := s.name = "" || stripChars s.name.toList = []

/-- `max(times)` for a nonempty list, `0` for an empty one: the pattern
`current_server_time = 0; if valid_times: current_server_time = max(valid_times)`. -/
def currentServerTimeOf (times : List Int) : Int :=
  match times with
  | [] => 0
  | t :: ts => ts.foldl max t

/-- Lines 224-227: maximum positive `time` over the whole snapshot, `0` if none. -/
def snapshotServerTime (symbols : List Instrument) : Int :=
  currentServerTimeOf ((symbols.filter (fun s => 0 < s.time)).map Instrument.time)

/-- Lines 239-240: `path_parts = s.path.split('\\'); category = path_parts[0] if path_parts else "Uncategorized"`. -/
def categoryOf (s : Instrument) : String :=
  match splitOnChar '\\' s.path.toList with
  | [] => "Uncategorized"
  | p :: _ => String.mk p

/-- Lines 245-253: the daily change percentage before rounding. -/
def rawChange (s : Instrument) : ℚ :=
  let current_price := if 0 < s.last then s.last else s.bid
  let reference_price := if 0 < s.session_close then s.session_close else s.session_open
  if 0 < current_price ∧ 0 < reference_price then
    (current_price - reference_price) / reference_price * 100
  else 0

/-- Lines 255-262: the cheap list-view market-open classification. -/
def cheapMarketOpen (current_server_time : Int) (s : Instrument) : Bool :=
  let is_open : Bool :=
    decide (s.trade_mode ≠ SYMBOL_TRADE_MODE_DISABLED ∧ s.trade_mode ≠ SYMBOL_TRADE_MODE_CLOSEONLY)
  if is_open ∧ 0 < current_server_time ∧ 0 < s.time ∧ 600 < current_server_time - s.time then
    false
  else is_open

/-- The per-instrument record appended at lines 264-275. -/
structure SymbolRecord where
  symbol : String
  description : String
  path : String
  digits : Nat
  currency_base : String
  currency_profit : String
  bid : ℚ
  ask : ℚ
  change_percentage : ℚ
  market_open : Bool
deriving DecidableEq, Repr

def mkRecord (current_server_time : Int) (s : Instrument) : SymbolRecord :=
  { symbol := s.name
    description := s.description
    path := s.path
    digits := s.digits
    currency_base := s.currency_base
    currency_profit := s.currency_profit
    bid := s.bid
    ask := s.ask
    change_percentage := round2 (rawChange s)
    market_open := cheapMarketOpen current_server_time s }

/-- The insertion-ordered dictionary `grouped_symbols`, as an association list. -/
abbrev Grouped := List (String × List SymbolRecord)

/-- Appending a record to its category bucket, creating the bucket at the end
if absent — the behaviour of a Python dict at lines 242-243 and 264. -/
def insertGrouped (g : Grouped) (cat : String) (r : SymbolRecord) : Grouped :=
  match g with
  | [] => [(cat, [r])]
  | (c, rs) :: rest =>
    if c = cat then (c, rs ++ [r]) :: rest else (c, rs) :: insertGrouped rest cat r

/-- The loop body at lines 232-275: skip-and-count empty names, otherwise
append the record under its category. -/
def aggStep (current_server_time : Int) (acc : Grouped × Nat) (s : Instrument) : Grouped × Nat :=
  if isEmptyName s then (acc.1, acc.2 + 1)
  else (insertGrouped acc.1 (categoryOf s) (mkRecord current_server_time s), acc.2)

/-- The JSON payload returned at lines 280-284. -/
structure ListingResponse where
  count : Nat
  categories : List String
  data : Grouped
deriving DecidableEq, Repr

/-- Lines 223-284: the aggregation. The second component is the diagnostic
`empty_symbol_count`, which the code only logs (lines 277-278); it is not part
of the HTTP payload. -/
def aggregate (symbols : List Instrument) : ListingResponse × Nat :=
  let current_server_time := snapshotServerTime symbols
  let acc := symbols.foldl (aggStep current_server_time) ([], 0)
  ({ count := (acc.1.map (fun p => p.2.length)).sum
     categories := acc.1.map Prod.fst
     data := acc.1 }, acc.2)

/-- All records of a grouped listing, in bucket order. -/
def groupedRecords : Grouped → List SymbolRecord
  | [] => []
  | (_, rs) :: rest => rs ++ groupedRecords rest

/-- An HTTP error response (`HTTPException`): status code and detail. -/
structure HErr where
  status : Nat
  detail : String
deriving DecidableEq, Repr

/-- Lines 213-284: the `/available-symbols` endpoint. `symbolsOpt` is the
result of `mt5.symbols_get(group="*")`, `none` standing for Python `None`. -/
def get_available_symbols (connected : Bool) (symbolsOpt : Option (List Instrument)) :
    Except HErr ListingResponse :=
  if connected = false then .error ⟨503, "MT5 not connected"⟩
  else
    match symbolsOpt with
    | none => .error ⟨500, "Failed to fetch symbols"⟩
    | some symbols => .ok (aggregate symbols).1

/-! ## Expensive market-state evaluator (`is_market_open`, src/main.py lines 35-89) -/

/-- The result of `mt5.symbol_info_tick`, with the fields the code reads. -/
structure Tick where
  time : Int
  bid : ℚ
  ask : ℚ
  last : ℚ
  volume : Nat
  time_msc : Int
  flags : Nat
  volume_real : ℚ
deriving DecidableEq, Repr

/-- The result of `mt5.symbol_info`, with the fields `is_market_open` reads. -/
structure SymbolInfo where
  volume_min : ℚ
  trade_mode : Nat
deriving DecidableEq, Repr

/-- The dummy order-check request built at lines 55-63. -/
structure OrderRequest where
  action : Nat
  symbol : String
  volume : ℚ
  type : Nat
  price : ℚ
  type_time : Nat
  type_filling : Nat
deriving DecidableEq, Repr

/-- The result of `mt5.order_check`; only `retcode` is read. -/
structure OrderCheckResult where
  retcode : Nat
deriving DecidableEq, Repr

/-- The terminal's responses to the calls `is_market_open` makes: the
`connected` flag and the per-symbol results of `symbol_info`,
`symbol_info_tick` and `order_check` (`none` stands for Python `None`). -/
structure MarketEnv where
  connected : Bool
  symbol_info : String → Option SymbolInfo
  symbol_info_tick : String → Option Tick
  order_check : OrderRequest → Option OrderCheckResult

/-- Lines 55-63: the synthetic minimum-volume IOC buy validation request. -/
def mkOrderRequest (symbol : String) (info : SymbolInfo) (tick : Tick) : OrderRequest :=
  { action := TRADE_ACTION_DEAL
    symbol := symbol
    volume := info.volume_min
    type := ORDER_TYPE_BUY
    price := tick.ask
    type_time := ORDER_TIME_GTC
    type_filling := ORDER_FILLING_IOC }

/-- Lines 75-76: `ref_times`, the positive tick times of the reference
instruments EURUSD, BTCUSD, GBPUSD. -/
def refTimes (env : MarketEnv) : List Int :=
  ((["EURUSD", "BTCUSD", "GBPUSD"].filterMap env.symbol_info_tick).filter
    (fun t => 0 < t.time)).map Tick.time

/-- Lines 35-89: the expensive single-symbol classification. -/
def is_market_open (env : MarketEnv) (symbol : String) : Bool :=
  if env.connected = false then false
  else
    match env.symbol_info symbol with
    | none => false
    | some info =>
      match env.symbol_info_tick symbol with
      | none => false
      | some tick =>
        if (match env.order_check (mkOrderRequest symbol info tick) with
            | some r => decide (r.retcode = TRADE_RETCODE_MARKET_CLOSED)
            | none => false) then false
        else if refTimes env ≠ [] ∧ 600 < currentServerTimeOf (refTimes env) - tick.time then
          false
        else if info.trade_mode = SYMBOL_TRADE_MODE_DISABLED ∨
                info.trade_mode = SYMBOL_TRADE_MODE_CLOSEONLY then false
        else true

/-! ## Terminal Link connect (`connect_mt5`, src/main.py lines 91-150) -/

/-- The keyword-argument set handed to the terminal's initialization call,
built at lines 108-119 (a field is `none` when the setting was absent). -/
structure InitArgs where
  path : Option String
  login : Option Int
  password : Option String
  server : Option String
deriving DecidableEq, Repr

/-- The terminal's behaviour for one initialization attempt with a given
argument set: whether it succeeds, and the `last_error` code observed right
after a failed attempt. -/
structure ConnectEnv where
  attempt : InitArgs → Bool × Int

/-- The outcome of `connect_mt5`: the returned `(ok, error)` pair, the value of
the global `connected` flag afterwards, and the argument sets of the
initialization attempts actually made, in order. -/
structure ConnectOutcome where
  ok : Bool
  error : Option Int
  connected : Bool
  attempts : List InitArgs
deriving DecidableEq, Repr

/-- Lines 127-150 of `connect_mt5`: attempt with the full argument set; on
failure, if a path was supplied, retry once with the path removed. -/
def connect_mt5 (env : ConnectEnv) (args : InitArgs) : ConnectOutcome :=
  let (ok1, err1) := env.attempt args
  if ok1 then ⟨true, none, true, [args]⟩
  else
    match args.path with
    | some _ =>
      let args2 : InitArgs := { args with path := none }
      let (ok2, err2) := env.attempt args2
      if ok2 then ⟨true, none, true, [args, args2]⟩
      else ⟨false, some err2, false, [args, args2]⟩
    | none => ⟨false, some err1, false, [args]⟩

/-! ## History endpoint (`get_history`, src/main.py lines 286-330) -/

/-- The `TIMEFRAMES` dict at lines 19-33, with the MetaTrader5 constant
values. -/
def TIMEFRAMES : List (String × Nat) :=
  [("M1", 1), ("M2", 2), ("M3", 3), ("M5", 5), ("M10", 10), ("M15", 15),
   ("M30", 30), ("H1", 16385), ("H2", 16386), ("H4", 16388), ("D1", 16408),
   ("W1", 32769), ("MN1", 49153)]

/-- One bar returned by `mt5.copy_rates_from_pos`, after the per-field
conversion at lines 313-323. -/
structure Rate where
  time : Int
  open_ : ℚ
  high : ℚ
  low : ℚ
  close : ℚ
  tick_volume : Nat
  spread : Nat
  real_volume : Nat
deriving DecidableEq, Repr

/-- A call made against the terminal by an endpoint, for observing call
order. -/
inductive TermCall where
  | select (symbol : String)
  | copyRates (symbol : String) (tf : Nat) (start : Nat) (limit : Nat)
deriving DecidableEq, Repr

/-- The terminal's responses to the calls `get_history` makes. -/
structure HistoryEnv where
  connected : Bool
  symbol_select : String → Bool
  copy_rates : String → Nat → Nat → Nat → Option (List Rate)

/-- The JSON payload returned at lines 325-330. -/
structure HistoryResponse where
  symbol : String
  timeframe : String
  count : Nat
  data : List Rate
deriving DecidableEq, Repr

/-- Lines 286-330: the `/history/{symbol}` endpoint, paired with the trace of
terminal calls it makes. -/
def get_history (env : HistoryEnv) (symbol timeframe : String) (limit : Nat) :
    Except HErr HistoryResponse × List TermCall :=
  if env.connected = false then (.error ⟨503, "MT5 not connected"⟩, [])
  else if timeframe ∉ TIMEFRAMES.map Prod.fst then
    (.error ⟨400, "Invalid timeframe"⟩, [])
  else if env.symbol_select symbol = false then
    (.error ⟨404, "Symbol not found"⟩, [.select symbol])
  else
    let tf := (TIMEFRAMES.lookup timeframe).getD 0
    match env.copy_rates symbol tf 0 limit with
    | none =>
      (.error ⟨500, "Failed to get history"⟩,
       [.select symbol, .copyRates symbol tf 0 limit])
    | some rates =>
      (.ok ⟨symbol, timeframe, rates.length, rates⟩,
       [.select symbol, .copyRates symbol tf 0 limit])

/-! ## Quote endpoint (`get_quote`, src/main.py lines 332-361) -/

/-- The terminal's responses to the sequence of calls `get_quote` can make:
the first `symbol_select`, the first `symbol_info_tick`, the second
`symbol_select`, the second `symbol_info_tick`, and the environment that the
final `is_market_open` call runs against. -/
structure QuoteEnv where
  market : MarketEnv
  select1 : Bool
  tick1 : Option Tick
  select2 : Bool
  tick2 : Option Tick

/-- The JSON payload returned at lines 350-361. -/
structure QuoteResponse where
  symbol : String
  time : Int
  bid : ℚ
  ask : ℚ
  last : ℚ
  volume : Nat
  time_msc : Int
  flags : Nat
  volume_real : ℚ
  market_open : Bool
deriving DecidableEq, Repr

def mkQuote (env : QuoteEnv) (symbol : String) (tick : Tick) : QuoteResponse :=
  { symbol := symbol
    time := tick.time
    bid := tick.bid
    ask := tick.ask
    last := tick.last
    volume := tick.volume
    time_msc := tick.time_msc
    flags := tick.flags
    volume_real := tick.volume_real
    market_open := is_market_open env.market symbol }

/-- Lines 332-361: the `/quote/{symbol}` endpoint. Note that the result of the
first `symbol_select` (line 337) is bound and then discarded (`pass`). -/
def get_quote (env : QuoteEnv) (symbol : String) : Except HErr QuoteResponse :=
  if env.market.connected = false then .error ⟨503, "MT5 not connected"⟩
  else
    match env.tick1 with
    | some tick => .ok (mkQuote env symbol tick)
    | none =>
      if env.select2 = false then .error ⟨404, "Symbol not found"⟩
      else
        match env.tick2 with
        | none => .error ⟨500, "Failed to get tick"⟩
        | some tick => .ok (mkQuote env symbol tick)

/-! ## Realtime feed (`websocket_endpoint` and `fetch_realtime_data`,
src/main.py lines 424-464) -/

/-- The reduced per-symbol view pushed by the realtime loop (lines 455-462). -/
structure RtRecord where
  symbol : String
  bid : ℚ
  ask : ℚ
  time : Int
  digits : Nat
deriving DecidableEq, Repr

/-- A frame sent over the WebSocket: either the error frame of line 452 or
the data frame of line 464. -/
inductive RtFrame where
  | errorFrame (error : String) (data : List RtRecord)
  | dataFrame (count : Nat) (data : List RtRecord)
deriving DecidableEq, Repr

/-- Lines 447-464: one snapshot projected to the reduced realtime view;
`none` stands for `symbols_get` returning Python `None`. -/
def fetch_realtime_data (symbolsOpt : Option (List Instrument)) : RtFrame :=
  match symbolsOpt with
  | none => .errorFrame "Failed to fetch symbols" []
  | some symbols =>
    let results := symbols.map (fun s =>
      RtRecord.mk s.name s.bid s.ask s.time s.digits)
    .dataFrame results.length results

/-- The frames sent by the first `fuel` iterations of the `while True` loop at
lines 433-437, starting at iteration `i`; `snapshots i` is what
`mt5.symbols_get(group="*")` returns during iteration `i`. The loop body has
no exit of its own: it terminates only through an externally raised
exception (client disconnect or send failure), which is outside the model. -/
def streamFrames (snapshots : Nat → Option (List Instrument)) : Nat → Nat → List RtFrame
  | _, 0 => []
  | i, fuel + 1 =>
    fetch_realtime_data (snapshots i) :: streamFrames snapshots (i + 1) fuel

/-- An observable WebSocket event of the `/ws/realtime` endpoint. -/
inductive WsEvent where
  | accept
  | sendJson (frame : RtFrame)
  | close (code : Nat) (reason : String)
deriving DecidableEq, Repr

/-- Lines 424-437: the event trace of the `/ws/realtime` endpoint, observed
for `fuel` loop iterations. -/
def websocket_endpoint (connected : Bool) (snapshots : Nat → Option (List Instrument))
    (fuel : Nat) : List WsEvent :=
  WsEvent.accept ::
    (if connected = false then [WsEvent.close 1000 "MT5 not connected"]
     else (streamFrames snapshots 0 fuel).map WsEvent.sendJson)

/-! ## Concrete fixtures used by witnesses and counterexamples -/

/-- A representative healthy instrument. -/
def baseInstr : Instrument :=
  { name := "EURUSD"
    path := "Forex\\Majors\\EURUSD"
    description := "Euro vs US Dollar"
    digits := 5
    currency_base := "EUR"
    currency_profit := "USD"
    bid := 1
    ask := 1
    last := 1
    session_open := 1
    session_close := 1
    trade_mode := SYMBOL_TRADE_MODE_FULL
    time := 10000 }

/-- The spec example: `last = 0`, `bid = 50`, `session_close = 0`, `session_open = 40`. -/
def chgInstr : Instrument :=
  { baseInstr with last := 0, bid := 50, session_close := 0, session_open := 40 }

/-- An instrument with an empty name, to be filtered out. -/
def emptyInstr : Instrument := { baseInstr with name := "" }

def validInstr1 : Instrument := { baseInstr with name := "AAA" }

def validInstr2 : Instrument := { baseInstr with name := "BBB" }

/-- An instrument whose path contains no backslash delimiter. -/
def noDelimInstr : Instrument := { baseInstr with name := "GOLD", path := "GOLD" }

/-- An instrument whose feed is stale relative to `baseInstr` (1000 s older). -/
def staleInstr : Instrument := { baseInstr with name := "STALE", time := 9000 }

/-- A terminal environment where everything is healthy. -/
def wTick : Tick := ⟨10000, 1, 1, 1, 1, 10000000, 0, 1⟩

def wMarketEnv : MarketEnv :=
  { connected := true
    symbol_info := fun _ => some ⟨1/100, SYMBOL_TRADE_MODE_FULL⟩
    symbol_info_tick := fun _ => some wTick
    order_check := fun _ => none }

/-- A terminal whose initialization always fails with error code 42. -/
def wConnectEnv : ConnectEnv := ⟨fun _ => (false, 42)⟩

def wArgs : InitArgs := ⟨some "C:\\terminal64.exe", some 123, some "pw", some "srv"⟩

def wHistoryEnv : HistoryEnv :=
  { connected := true
    symbol_select := fun _ => true
    copy_rates := fun _ _ _ _ => some [] }

def wQuoteEnv : QuoteEnv :=
  { market := wMarketEnv
    select1 := false
    tick1 := some wTick
    select2 := true
    tick2 := some wTick }

/-- Witness snapshot for the aggregator claims: a healthy and a stale
instrument in the same category. -/
def wSnap : List Instrument := [baseInstr, staleInstr]

def wRec1 : SymbolRecord := mkRecord (snapshotServerTime wSnap) baseInstr

def wRec2 : SymbolRecord := mkRecord (snapshotServerTime wSnap) staleInstr

/-! ## Helper lemmas -/

theorem le_foldl_max (l : List Int) (a : Int) : a ≤ l.foldl max a := by
  induction l generalizing a with
  | nil => simp
  | cons x xs ih => exact le_trans (le_max_left a x) (ih (max a x))

theorem mem_le_foldl_max (l : List Int) (a : Int) : ∀ x ∈ l, x ≤ l.foldl max a := by
  induction l generalizing a with
  | nil => simp
  | cons y ys ih =>
    intro x hx
    rcases List.mem_cons.mp hx with h | h
    · subst h
      exact le_trans (le_max_right a x) (le_foldl_max ys (max a x))
    · exact ih (max a y) x h

theorem foldl_max_mem (l : List Int) (a : Int) : l.foldl max a = a ∨ l.foldl max a ∈ l := by
  induction l generalizing a with
  | nil => simp
  | cons y ys ih =>
    simp only [List.foldl_cons]
    rcases ih (max a y) with h | h
    · rcases max_choice a y with h1 | h1
      · left; rw [h, h1]
      · right; rw [h, h1]; exact List.mem_cons_self y ys
    · right; exact List.mem_cons_of_mem y h

theorem currentServerTimeOf_mem_le (times : List Int) (t : Int) (h : t ∈ times) :
    t ≤ currentServerTimeOf times := by
  cases times with
  | nil => simp at h
  | cons x xs =>
    rcases List.mem_cons.mp h with h1 | h1
    · subst h1; exact le_foldl_max xs t
    · exact mem_le_foldl_max xs x t h1

theorem currentServerTimeOf_mem (times : List Int) (h : times ≠ []) :
    currentServerTimeOf times ∈ times := by
  cases times with
  | nil => exact absurd rfl h
  | cons x xs =>
    simp only [currentServerTimeOf]
    rcases foldl_max_mem xs x with h1 | h1
    · rw [h1]; exact List.mem_cons_self x xs
    · exact List.mem_cons_of_mem x h1

theorem groupedRecords_insertGrouped (g : Grouped) (c : String) (r : SymbolRecord) :
    (groupedRecords (insertGrouped g c r)).Perm (groupedRecords g ++ [r]) := by
  induction g with
  | nil => simp [insertGrouped, groupedRecords]
  | cons p rest ih =>
    obtain ⟨c', rs⟩ := p
    by_cases h : c' = c
    · simp only [insertGrouped, if_pos h, groupedRecords, List.append_assoc]
      exact List.Perm.append_left rs (List.perm_append_comm)
    · simp only [insertGrouped, if_neg h, groupedRecords, List.append_assoc]
      exact List.Perm.append_left rs ih

theorem mem_groupedRecords_of_pair (g : Grouped) (cat : String) (rs : List SymbolRecord)
    (r : SymbolRecord) (hp : (cat, rs) ∈ g) (hr : r ∈ rs) : r ∈ groupedRecords g := by
  induction g with
  | nil => simp at hp
  | cons p rest ih =>
    obtain ⟨c', rs'⟩ := p
    rcases List.mem_cons.mp hp with h | h
    · simp only [Prod.mk.injEq] at h
      simp only [groupedRecords, List.mem_append]
      left
      exact h.2 ▸ hr
    · simp only [groupedRecords, List.mem_append]
      right
      exact ih h

theorem groupedRecords_length_sum (g : Grouped) :
    (g.map (fun p => p.2.length)).sum = (groupedRecords g).length := by
  induction g with
  | nil => rfl
  | cons p rest ih =>
    obtain ⟨c', rs'⟩ := p
    simp [groupedRecords, ih]

theorem aggStep_empty (cst : Int) (acc : Grouped × Nat) (s : Instrument)
    (h : isEmptyName s = true) : aggStep cst acc s = (acc.1, acc.2 + 1) := by
  simp [aggStep, h]

theorem aggStep_kept (cst : Int) (acc : Grouped × Nat) (s : Instrument)
    (h : isEmptyName s = false) :
    aggStep cst acc s = (insertGrouped acc.1 (categoryOf s) (mkRecord cst s), acc.2) := by
  simp [aggStep, h]

theorem agg_foldl (cst : Int) (l : List Instrument) (g0 : Grouped) (n0 : Nat) :
    (groupedRecords (l.foldl (aggStep cst) (g0, n0)).1).Perm
      (groupedRecords g0 ++ (l.filter (fun s => !isEmptyName s)).map (mkRecord cst)) ∧
    (l.foldl (aggStep cst) (g0, n0)).2 = n0 + (l.filter (fun s => isEmptyName s)).length := by
  induction l generalizing g0 n0 with
  | nil => simp
  | cons s rest ih =>
    by_cases h : isEmptyName s = true
    · rw [List.foldl_cons, aggStep_empty cst (g0, n0) s h]
      have h2 := ih g0 (n0 + 1)
      constructor
      · have hfil : List.filter (fun s => !isEmptyName s) (s :: rest)
            = List.filter (fun s => !isEmptyName s) rest := by
          simp [List.filter_cons, h]
        rw [hfil]
        exact h2.1
      · have hfil : List.filter (fun s => isEmptyName s) (s :: rest)
            = s :: List.filter (fun s => isEmptyName s) rest := by
          simp [List.filter_cons, h]
        rw [hfil, h2.2, List.length_cons]
        omega
    · have hf : isEmptyName s = false := eq_false_of_ne_true h
      rw [List.foldl_cons, aggStep_kept cst (g0, n0) s hf]
      have h2 := ih (insertGrouped g0 (categoryOf s) (mkRecord cst s)) n0
      constructor
      · have hfil : List.filter (fun s => !isEmptyName s) (s :: rest)
            = s :: List.filter (fun s => !isEmptyName s) rest := by
          simp [List.filter_cons, hf]
        rw [hfil, List.map_cons]
        refine h2.1.trans ?_
        refine (List.Perm.append_right _
          (groupedRecords_insertGrouped g0 (categoryOf s) (mkRecord cst s))).trans ?_
        rw [List.append_assoc, List.singleton_append]
      · have hfil : List.filter (fun s => isEmptyName s) (s :: rest)
            = List.filter (fun s => isEmptyName s) rest := by
          simp [List.filter_cons, hf]
        rw [hfil]
        exact h2.2

theorem aggregate_records (symbols : List Instrument) :
    (groupedRecords (aggregate symbols).1.data).Perm
      ((symbols.filter (fun s => !isEmptyName s)).map (mkRecord (snapshotServerTime symbols))) := by
  have h := agg_foldl (snapshotServerTime symbols) symbols [] 0
  simpa [aggregate, groupedRecords] using h.1

theorem aggregate_count (symbols : List Instrument) :
    (aggregate symbols).1.count = (symbols.filter (fun s => !isEmptyName s)).length := by
  have h := (aggregate_records symbols).length_eq
  simp only [aggregate, groupedRecords_length_sum]
  rw [show (aggregate symbols).1.data =
      (symbols.foldl (aggStep (snapshotServerTime symbols)) ([], 0)).1 from rfl] at h
  simpa [aggregate] using h

theorem aggregate_empty_count (symbols : List Instrument) :
    (aggregate symbols).2 = (symbols.filter (fun s => isEmptyName s)).length := by
  have h := (agg_foldl (snapshotServerTime symbols) symbols [] 0).2
  simpa [aggregate] using h

theorem insertGrouped_pairs (C : String → SymbolRecord → Prop) (g : Grouped) (c : String)
    (r : SymbolRecord) (h0 : ∀ cat rs, (cat, rs) ∈ g → ∀ x ∈ rs, C cat x) (hr : C c r) :
    ∀ cat rs, (cat, rs) ∈ insertGrouped g c r → ∀ x ∈ rs, C cat x := by
  induction g with
  | nil =>
    intro cat rs hmem x hx
    simp only [insertGrouped, List.mem_singleton, Prod.mk.injEq] at hmem
    obtain ⟨hc, hrs⟩ := hmem
    subst hc; subst hrs
    simp only [List.mem_singleton] at hx
    subst hx
    exact hr
  | cons p rest ih =>
    obtain ⟨c', rs'⟩ := p
    intro cat rs hmem x hx
    by_cases h : c' = c
    · simp only [insertGrouped, if_pos h, List.mem_cons, Prod.mk.injEq] at hmem
      rcases hmem with ⟨hcat, hrs⟩ | hmem
      · rw [hcat]
        have hx' : x ∈ rs' ++ [r] := hrs ▸ hx
        rcases List.mem_append.mp hx' with hx1 | hx1
        · exact h0 c' rs' (List.mem_cons_self _ _) x hx1
        · simp only [List.mem_singleton] at hx1
          rw [hx1, h]
          exact hr
      · exact h0 cat rs (List.mem_cons_of_mem _ hmem) x hx
    · simp only [insertGrouped, if_neg h, List.mem_cons, Prod.mk.injEq] at hmem
      rcases hmem with ⟨hcat, hrs⟩ | hmem
      · rw [hcat]
        exact h0 c' rs' (List.mem_cons_self _ _) x (hrs ▸ hx)
      · exact ih (fun cat1 rs1 hm1 => h0 cat1 rs1 (List.mem_cons_of_mem _ hm1)) cat rs hmem x hx

theorem agg_foldl_pairs (cst : Int) (C : String → SymbolRecord → Prop)
    (l : List Instrument) (acc : Grouped × Nat)
    (h0 : ∀ cat rs, (cat, rs) ∈ acc.1 → ∀ x ∈ rs, C cat x)
    (hl : ∀ s ∈ l, isEmptyName s = false → C (categoryOf s) (mkRecord cst s)) :
    ∀ cat rs, (cat, rs) ∈ (l.foldl (aggStep cst) acc).1 → ∀ x ∈ rs, C cat x := by
  induction l generalizing acc with
  | nil => simpa using h0
  | cons s rest ih =>
    simp only [List.foldl_cons]
    apply ih
    · by_cases h : isEmptyName s
      · simpa [aggStep, h] using h0
      · simp only [aggStep, if_neg h]
        exact insertGrouped_pairs C acc.1 (categoryOf s) (mkRecord cst s) h0
          (hl s (List.mem_cons_self s rest) (by simpa using h))
    · intro s' hs' he
      exact hl s' (List.mem_cons_of_mem s hs') he

theorem aggregate_pairs (symbols : List Instrument) (cat : String)
    (rs : List SymbolRecord) (r : SymbolRecord)
    (hp : (cat, rs) ∈ (aggregate symbols).1.data) (hr : r ∈ rs) :
    ∃ s ∈ symbols, isEmptyName s = false ∧ cat = categoryOf s ∧
      r = mkRecord (snapshotServerTime symbols) s := by
  have h := agg_foldl_pairs (snapshotServerTime symbols)
    (fun cat1 r1 => ∃ s ∈ symbols, isEmptyName s = false ∧ cat1 = categoryOf s ∧
      r1 = mkRecord (snapshotServerTime symbols) s)
    symbols ([], 0) (by simp)
    (fun s hs he => ⟨s, hs, he, rfl, rfl⟩)
  exact h cat rs (by simpa [aggregate] using hp) r hr

theorem splitOnCharAux_not_mem (c : Char) (l : List Char) (acc : List Char) (h : c ∉ l) :
    splitOnCharAux c l acc = [acc.reverse ++ l] := by
  induction l generalizing acc with
  | nil => simp [splitOnCharAux]
  | cons x xs ih =>
    have hx : ¬(x = c) := fun he => h (he ▸ List.mem_cons_self x xs)
    simp only [splitOnCharAux, if_neg hx]
    rw [ih (x :: acc) (fun hc => h (List.mem_cons_of_mem x hc))]
    simp

theorem splitOnChar_not_mem (c : Char) (l : List Char) (h : c ∉ l) :
    splitOnChar c l = [l] := by
  simp [splitOnChar, splitOnCharAux_not_mem c l [] h]

theorem categoryOf_no_delim (s : Instrument) (h : ('\\') ∉ s.path.toList) :
    categoryOf s = s.path := by
  simp only [categoryOf, splitOnChar_not_mem _ _ h]
  rfl

theorem snapshotServerTime_eq_zero (symbols : List Instrument)
    (h : ∀ s ∈ symbols, ¬ 0 < s.time) : snapshotServerTime symbols = 0 := by
  have hfil : symbols.filter (fun s => 0 < s.time) = [] := by
    rw [List.filter_eq_nil_iff]
    intro a ha
    simpa using h a ha
  simp [snapshotServerTime, hfil, currentServerTimeOf]

theorem le_snapshotServerTime (symbols : List Instrument) (s : Instrument)
    (hs : s ∈ symbols) (ht : 0 < s.time) : s.time ≤ snapshotServerTime symbols := by
  apply currentServerTimeOf_mem_le
  exact List.mem_map.mpr ⟨s, List.mem_filter.mpr ⟨hs, by simpa using ht⟩, rfl⟩

theorem snapshotServerTime_mem (symbols : List Instrument)
    (h : ∃ s ∈ symbols, 0 < s.time) :
    ∃ s ∈ symbols, 0 < s.time ∧ snapshotServerTime symbols = s.time := by
  obtain ⟨s0, hs0, ht0⟩ := h
  have hne : ((symbols.filter (fun s => 0 < s.time)).map Instrument.time) ≠ [] := by
    intro he
    have hm : s0.time ∈ (symbols.filter (fun s => 0 < s.time)).map Instrument.time :=
      List.mem_map.mpr ⟨s0, List.mem_filter.mpr ⟨hs0, by simpa using ht0⟩, rfl⟩
    rw [he] at hm
    simp at hm
  have hmem := currentServerTimeOf_mem _ hne
  obtain ⟨s, hsf, hst⟩ := List.mem_map.mp hmem
  have hs := List.mem_filter.mp hsf
  exact ⟨s, hs.1, by simpa using hs.2, hst.symm⟩

theorem cheapMarketOpen_iff (cst : Int) (s : Instrument) :
    cheapMarketOpen cst s = true ↔
      (s.trade_mode ≠ SYMBOL_TRADE_MODE_DISABLED ∧ s.trade_mode ≠ SYMBOL_TRADE_MODE_CLOSEONLY) ∧
      ¬(0 < cst ∧ 0 < s.time ∧ 600 < cst - s.time) := by
  unfold cheapMarketOpen
  by_cases h1 : s.trade_mode ≠ SYMBOL_TRADE_MODE_DISABLED ∧ s.trade_mode ≠ SYMBOL_TRADE_MODE_CLOSEONLY
  · by_cases h2 : 0 < cst ∧ 0 < s.time ∧ 600 < cst - s.time
    · simp [h1, h2]
    · simp [h1, h2]
  · simp [h1]

/-! ## Claims -/

/-- C1: In the grouped listing produced by the Aggregator, with
`current_server_time` the maximum `time` field over all instruments in the
snapshot (0 if no instrument has a positive time), every instrument's
`market_open` flag is true iff its trade mode is neither disabled nor
close-only and it is not stale, where stale means `current_server_time > 0`,
the instrument's own `time > 0`, and `current_server_time - time > 600`. -/
theorem C1_market_open_iff (symbols : List Instrument) (cat : String)
    (rs : List SymbolRecord) (r : SymbolRecord)
    (hp : (cat, rs) ∈ (aggregate symbols).1.data) (hr : r ∈ rs) :
    ((∀ s ∈ symbols, ¬ 0 < s.time) → snapshotServerTime symbols = 0) ∧
    (∀ s ∈ symbols, 0 < s.time → s.time ≤ snapshotServerTime symbols) ∧
    ((∃ s ∈ symbols, 0 < s.time) →
      ∃ s ∈ symbols, 0 < s.time ∧ snapshotServerTime symbols = s.time) ∧
    (∃ s ∈ symbols, r = mkRecord (snapshotServerTime symbols) s ∧
      (r.market_open = true ↔
        (s.trade_mode ≠ SYMBOL_TRADE_MODE_DISABLED ∧
         s.trade_mode ≠ SYMBOL_TRADE_MODE_CLOSEONLY) ∧
        ¬(0 < snapshotServerTime symbols ∧ 0 < s.time ∧
           600 < snapshotServerTime symbols - s.time))) := by
  refine ⟨snapshotServerTime_eq_zero symbols,
    fun s hs ht => le_snapshotServerTime symbols s hs ht,
    snapshotServerTime_mem symbols, ?_⟩
  obtain ⟨s, hs, hne, hcat, hrec⟩ := aggregate_pairs symbols cat rs r hp hr
  refine ⟨s, hs, hrec, ?_⟩
  rw [hrec]
  simpa [mkRecord] using cheapMarketOpen_iff (snapshotServerTime symbols) s

/-- Witness for C1 at the concrete snapshot `wSnap`. -/
theorem C1_market_open_iff_witness :
    ((∀ s ∈ wSnap, ¬ 0 < s.time) → snapshotServerTime wSnap = 0) ∧
    (∀ s ∈ wSnap, 0 < s.time → s.time ≤ snapshotServerTime wSnap) ∧
    ((∃ s ∈ wSnap, 0 < s.time) →
      ∃ s ∈ wSnap, 0 < s.time ∧ snapshotServerTime wSnap = s.time) ∧
    (∃ s ∈ wSnap, wRec2 = mkRecord (snapshotServerTime wSnap) s ∧
      (wRec2.market_open = true ↔
        (s.trade_mode ≠ SYMBOL_TRADE_MODE_DISABLED ∧
         s.trade_mode ≠ SYMBOL_TRADE_MODE_CLOSEONLY) ∧
        ¬(0 < snapshotServerTime wSnap ∧ 0 < s.time ∧
           600 < snapshotServerTime wSnap - s.time))) :=
  C1_market_open_iff wSnap "Forex" [wRec1, wRec2] wRec2
    (List.mem_singleton.mpr rfl)
    (List.Mem.tail _ (List.Mem.head _))

/-- C2: every record's `change_percentage` is the rounded relative change of
`current_price` (`last` if positive else `bid`) against `reference_price`
(`session_close` if positive else `session_open`) when both are positive, and
`0.0` otherwise; in particular `last = 0`, `bid = 50`, `session_close = 0`,
`session_open = 40` yields `25.0`. -/
theorem C2_change_percentage :
    (∀ (symbols : List Instrument) (r : SymbolRecord),
      r ∈ groupedRecords (aggregate symbols).1.data →
      ∃ s ∈ symbols, r.symbol = s.name ∧
        r.change_percentage =
          (if 0 < (if 0 < s.last then s.last else s.bid) ∧
              0 < (if 0 < s.session_close then s.session_close else s.session_open) then
            round2 (((if 0 < s.last then s.last else s.bid) -
                (if 0 < s.session_close then s.session_close else s.session_open)) /
              (if 0 < s.session_close then s.session_close else s.session_open) * 100)
          else 0)) ∧
    (groupedRecords (aggregate [chgInstr]).1.data).map SymbolRecord.change_percentage = [25] := by
  constructor
  · intro symbols r hmem
    have hmem2 := (aggregate_records symbols).mem_iff.mp hmem
    obtain ⟨s, hsf, hrec⟩ := List.mem_map.mp hmem2
    have hs := (List.mem_filter.mp hsf).1
    refine ⟨s, hs, ?_, ?_⟩
    · rw [← hrec]
      rfl
    · rw [← hrec]
      show round2 (rawChange s) = _
      simp only [rawChange]
      by_cases h : 0 < (if 0 < s.last then s.last else s.bid) ∧
          0 < (if 0 < s.session_close then s.session_close else s.session_open)
      · rw [if_pos h, if_pos h]
      · rw [if_neg h, if_neg h]
        norm_num [round2, roundHalfEven]
  · have hdata : groupedRecords (aggregate [chgInstr]).1.data =
        [mkRecord (snapshotServerTime [chgInstr]) chgInstr] := rfl
    rw [hdata]
    simp only [List.map_cons, List.map_nil, mkRecord]
    norm_num [rawChange, chgInstr, baseInstr, round2, roundHalfEven]

/-- Witness for C2 at the spec's concrete instrument. -/
theorem C2_change_percentage_witness :
    ∃ s ∈ [chgInstr], (mkRecord (snapshotServerTime [chgInstr]) chgInstr).symbol = s.name ∧
      (mkRecord (snapshotServerTime [chgInstr]) chgInstr).change_percentage =
        (if 0 < (if 0 < s.last then s.last else s.bid) ∧
            0 < (if 0 < s.session_close then s.session_close else s.session_open) then
          round2 (((if 0 < s.last then s.last else s.bid) -
              (if 0 < s.session_close then s.session_close else s.session_open)) /
            (if 0 < s.session_close then s.session_close else s.session_open) * 100)
        else 0) :=
  C2_change_percentage.1 [chgInstr] (mkRecord (snapshotServerTime [chgInstr]) chgInstr)
    (List.mem_singleton.mpr rfl)

/-- C3: the expensive single-symbol classification returns open iff the link
is connected, the symbol's info and tick are both available, the
trade-validation probe does not report market-closed, the tick is not more
than 600 seconds older than the maximum reference tick time found among
EURUSD, BTCUSD, GBPUSD, and the trade mode is neither disabled nor
close-only; any missing info or tick yields closed. -/
theorem C3_is_market_open_iff (env : MarketEnv) (symbol : String) :
    (is_market_open env symbol = true ↔
      env.connected = true ∧
      ∃ info tick, env.symbol_info symbol = some info ∧
        env.symbol_info_tick symbol = some tick ∧
        (∀ res, env.order_check (mkOrderRequest symbol info tick) = some res →
          res.retcode ≠ TRADE_RETCODE_MARKET_CLOSED) ∧
        (refTimes env ≠ [] → currentServerTimeOf (refTimes env) - tick.time ≤ 600) ∧
        info.trade_mode ≠ SYMBOL_TRADE_MODE_DISABLED ∧
        info.trade_mode ≠ SYMBOL_TRADE_MODE_CLOSEONLY) ∧
    ((env.symbol_info symbol = none ∨ env.symbol_info_tick symbol = none) →
      is_market_open env symbol = false) := by
  constructor
  · unfold is_market_open
    cases hc : env.connected with
    | false => simp
    | true =>
      simp only [Bool.true_eq_false, if_false, true_and]
      cases hinfo : env.symbol_info symbol with
      | none => simp
      | some info =>
        cases htick : env.symbol_info_tick symbol with
        | none => simp
        | some tick =>
          simp only [Option.some.injEq, exists_and_left, exists_eq_left']
          cases horder : env.order_check (mkOrderRequest symbol info tick) with
          | some res =>
            by_cases h1 : res.retcode = TRADE_RETCODE_MARKET_CLOSED
            · rw [if_pos (by simp [h1])]
              refine iff_of_false (by simp) ?_
              rintro ⟨hAll, -, -, -⟩
              exact absurd h1 (hAll res rfl)
            · rw [if_neg (by simp [h1])]
              by_cases h2 : refTimes env ≠ [] ∧
                  600 < currentServerTimeOf (refTimes env) - tick.time
              · rw [if_pos h2]
                refine iff_of_false (by simp) ?_
                rintro ⟨-, hStale, -, -⟩
                exact absurd (hStale h2.1) (not_le.mpr h2.2)
              · rw [if_neg h2]
                by_cases h3 : info.trade_mode = SYMBOL_TRADE_MODE_DISABLED ∨
                    info.trade_mode = SYMBOL_TRADE_MODE_CLOSEONLY
                · rw [if_pos h3]
                  refine iff_of_false (by simp) ?_
                  rintro ⟨-, -, hA3, hA4⟩
                  rcases h3 with h3 | h3
                  · exact hA3 h3
                  · exact hA4 h3
                · rw [if_neg h3]
                  push_neg at h3
                  refine iff_of_true rfl ⟨?_, ?_, h3.1, h3.2⟩
                  · intro res' hres'
                    rw [Option.some.injEq] at hres'
                    rw [← hres']
                    exact h1
                  · intro hne
                    exact le_of_not_lt (fun hgt => h2 ⟨hne, hgt⟩)
          | none =>
            rw [if_neg (by simp)]
            by_cases h2 : refTimes env ≠ [] ∧
                600 < currentServerTimeOf (refTimes env) - tick.time
            · rw [if_pos h2]
              refine iff_of_false (by simp) ?_
              rintro ⟨-, hStale, -, -⟩
              exact absurd (hStale h2.1) (not_le.mpr h2.2)
            · rw [if_neg h2]
              by_cases h3 : info.trade_mode = SYMBOL_TRADE_MODE_DISABLED ∨
                  info.trade_mode = SYMBOL_TRADE_MODE_CLOSEONLY
              · rw [if_pos h3]
                refine iff_of_false (by simp) ?_
                rintro ⟨-, -, hA3, hA4⟩
                rcases h3 with h3 | h3
                · exact hA3 h3
                · exact hA4 h3
              · rw [if_neg h3]
                push_neg at h3
                refine iff_of_true rfl ⟨?_, ?_, h3.1, h3.2⟩
                · intro res' hres'
                  exact absurd hres' (by simp)
                · intro hne
                  exact le_of_not_lt (fun hgt => h2 ⟨hne, hgt⟩)
  · intro h
    unfold is_market_open
    rcases h with h | h
    · rw [h]
      cases env.connected <;> simp
    · rw [h]
      cases env.connected <;> cases env.symbol_info symbol <;> simp

/-- Witness for C3 at a concrete healthy environment. -/
theorem C3_is_market_open_iff_witness :
    (is_market_open wMarketEnv "EURUSD" = true ↔
      wMarketEnv.connected = true ∧
      ∃ info tick, wMarketEnv.symbol_info "EURUSD" = some info ∧
        wMarketEnv.symbol_info_tick "EURUSD" = some tick ∧
        (∀ res, wMarketEnv.order_check (mkOrderRequest "EURUSD" info tick) = some res →
          res.retcode ≠ TRADE_RETCODE_MARKET_CLOSED) ∧
        (refTimes wMarketEnv ≠ [] →
          currentServerTimeOf (refTimes wMarketEnv) - tick.time ≤ 600) ∧
        info.trade_mode ≠ SYMBOL_TRADE_MODE_DISABLED ∧
        info.trade_mode ≠ SYMBOL_TRADE_MODE_CLOSEONLY) ∧
    ((wMarketEnv.symbol_info "EURUSD" = none ∨ wMarketEnv.symbol_info_tick "EURUSD" = none) →
      is_market_open wMarketEnv "EURUSD" = false) :=
  C3_is_market_open_iff wMarketEnv "EURUSD"

/-- C4: instruments with empty or whitespace-only names are excluded from
every category; the returned count is the number of kept instruments; the
filtered count is the diagnostic side channel, and the endpoint still
succeeds; the concrete 1-empty-2-valid snapshot yields count 2 and filtered
count 1. -/
theorem C4_empty_name_filter :
    (∀ symbols : List Instrument,
      get_available_symbols true (some symbols) = .ok (aggregate symbols).1 ∧
      (aggregate symbols).1.count = (symbols.filter (fun s => !isEmptyName s)).length ∧
      (aggregate symbols).2 = (symbols.filter (fun s => isEmptyName s)).length ∧
      (∀ cat rs, (cat, rs) ∈ (aggregate symbols).1.data → ∀ r ∈ rs,
        ¬(r.symbol = "" ∨ stripChars r.symbol.toList = []))) ∧
    ((aggregate [emptyInstr, validInstr1, validInstr2]).1.count = 2 ∧
     (aggregate [emptyInstr, validInstr1, validInstr2]).2 = 1 ∧
     (groupedRecords (aggregate [emptyInstr, validInstr1, validInstr2]).1.data).map
        SymbolRecord.symbol = ["AAA", "BBB"]) := by
  constructor
  · intro symbols
    refine ⟨rfl, aggregate_count symbols, aggregate_empty_count symbols, ?_⟩
    intro cat rs hp r hr
    obtain ⟨s, hs, hne, -, hrec⟩ := aggregate_pairs symbols cat rs r hp hr
    rw [hrec]
    show ¬(s.name = "" ∨ stripChars s.name.toList = [])
    intro hcon
    rw [isEmptyName] at hne
    simp at hne
    rcases hcon with h | h
    · exact hne.1 h
    · exact hne.2 h
  · exact ⟨rfl, rfl, rfl⟩

/-- Witness for C4 at the concrete 1-empty-2-valid snapshot. -/
theorem C4_empty_name_filter_witness :
    get_available_symbols true (some [emptyInstr, validInstr1, validInstr2]) =
      .ok (aggregate [emptyInstr, validInstr1, validInstr2]).1 ∧
    (aggregate [emptyInstr, validInstr1, validInstr2]).1.count =
      ([emptyInstr, validInstr1, validInstr2].filter (fun s => !isEmptyName s)).length ∧
    (aggregate [emptyInstr, validInstr1, validInstr2]).2 =
      ([emptyInstr, validInstr1, validInstr2].filter (fun s => isEmptyName s)).length ∧
    (∀ cat rs, (cat, rs) ∈ (aggregate [emptyInstr, validInstr1, validInstr2]).1.data →
      ∀ r ∈ rs, ¬(r.symbol = "" ∨ stripChars r.symbol.toList = [])) :=
  C4_empty_name_filter.1 [emptyInstr, validInstr1, validInstr2]

/-- C5 counterexample: the instrument with path "GOLD" — which contains no
backslash delimiter — lands in a bucket named "GOLD" (the whole path), not in
an "Uncategorized" bucket. -/
theorem C5_counterexample :
    ('\\') ∉ noDelimInstr.path.toList ∧
    (aggregate [noDelimInstr]).1.categories = ["GOLD"] ∧
    ("GOLD" : String) ≠ "Uncategorized" :=
  ⟨by decide, rfl, by decide⟩

/-- C5 (amended): the category key is the first segment of the instrument's
path split on the backslash delimiter; an instrument whose path contains no
delimiter falls into a bucket named by its whole path (the "Uncategorized"
fallback is unreachable, since the split always yields at least one
segment). -/
theorem C5_category_first_segment (symbols : List Instrument) (cat : String)
    (rs : List SymbolRecord) (r : SymbolRecord)
    (hp : (cat, rs) ∈ (aggregate symbols).1.data) (hr : r ∈ rs) :
    ∃ s ∈ symbols, r.path = s.path ∧ cat = categoryOf s ∧
      (∀ p ps, splitOnChar '\\' s.path.toList = p :: ps → cat = String.mk p) ∧
      (('\\') ∉ s.path.toList → cat = s.path) := by
  obtain ⟨s, hs, -, hcat, hrec⟩ := aggregate_pairs symbols cat rs r hp hr
  refine ⟨s, hs, by rw [hrec]; rfl, hcat, ?_, ?_⟩
  · intro p ps hsplit
    rw [hcat]
    simp only [categoryOf, hsplit]
  · intro h
    rw [hcat, categoryOf_no_delim s h]

/-- Witness for the amended C5 at the no-delimiter instrument. -/
theorem C5_category_first_segment_witness :
    ∃ s ∈ [noDelimInstr],
      (mkRecord (snapshotServerTime [noDelimInstr]) noDelimInstr).path = s.path ∧
      ("GOLD" : String) = categoryOf s ∧
      (∀ p ps, splitOnChar '\\' s.path.toList = p :: ps → ("GOLD" : String) = String.mk p) ∧
      (('\\') ∉ s.path.toList → ("GOLD" : String) = s.path) :=
  C5_category_first_segment [noDelimInstr] "GOLD"
    [mkRecord (snapshotServerTime [noDelimInstr]) noDelimInstr]
    (mkRecord (snapshotServerTime [noDelimInstr]) noDelimInstr)
    (List.mem_singleton.mpr rfl) (List.mem_singleton.mpr rfl)

/-- C6: when a path is supplied and the first initialization attempt fails,
exactly one second attempt is made with the path removed before overall
failure is reported with the terminal's last error code; with no path
supplied, no retry happens. -/
theorem C6_connect_retry (env : ConnectEnv) (args : InitArgs) :
    (∀ p, args.path = some p → (env.attempt args).1 = false →
      (connect_mt5 env args).attempts = [args, { args with path := none }] ∧
      ((env.attempt { args with path := none }).1 = false →
        connect_mt5 env args =
          ⟨false, some (env.attempt { args with path := none }).2, false,
           [args, { args with path := none }]⟩)) ∧
    (args.path = none → (env.attempt args).1 = false →
      (connect_mt5 env args).attempts = [args] ∧
      connect_mt5 env args = ⟨false, some (env.attempt args).2, false, [args]⟩) := by
  constructor
  · intro p hp h1
    rcases hA : env.attempt args with ⟨ok1, err1⟩
    rw [hA] at h1
    simp only at h1
    subst h1
    rcases hB : env.attempt { args with path := none } with ⟨ok2, err2⟩
    constructor
    · simp only [connect_mt5, hA, hp, hB]
      cases ok2 <;> simp
    · intro h2
      simp only at h2
      subst h2
      simp [connect_mt5, hA, hp, hB]
  · intro hp h1
    rcases hA : env.attempt args with ⟨ok1, err1⟩
    rw [hA] at h1
    simp only at h1
    subst h1
    exact ⟨by simp [connect_mt5, hA, hp], by simp [connect_mt5, hA, hp]⟩

/-- Witness for C6: first attempt with a path fails, the fallback attempt is
made without the path and its error code is reported. -/
theorem C6_connect_retry_witness :
    (connect_mt5 wConnectEnv wArgs).attempts = [wArgs, { wArgs with path := none }] ∧
    ((wConnectEnv.attempt { wArgs with path := none }).1 = false →
      connect_mt5 wConnectEnv wArgs =
        ⟨false, some (wConnectEnv.attempt { wArgs with path := none }).2, false,
         [wArgs, { wArgs with path := none }]⟩) :=
  (C6_connect_retry wConnectEnv wArgs).1 "C:\\terminal64.exe" rfl rfl

/-- C7: a realtime feed loop started while the link is not connected closes
the WebSocket immediately with code 1000 signaling "not connected" and never
produces a data frame. -/
theorem C7_disconnected_closes (snapshots : Nat → Option (List Instrument)) (fuel : Nat) :
    websocket_endpoint false snapshots fuel =
      [WsEvent.accept, WsEvent.close 1000 "MT5 not connected"] ∧
    ∀ f, WsEvent.sendJson f ∉ websocket_endpoint false snapshots fuel := by
  refine ⟨rfl, ?_⟩
  intro f
  simp [websocket_endpoint]

/-- Witness for C7 at a concrete snapshot stream and fuel. -/
theorem C7_disconnected_closes_witness :
    websocket_endpoint false (fun _ => none) 5 =
      [WsEvent.accept, WsEvent.close 1000 "MT5 not connected"] ∧
    ∀ f, WsEvent.sendJson f ∉ websocket_endpoint false (fun _ => none) 5 :=
  C7_disconnected_closes (fun _ => none) 5

/-- C8: while connected, a history request whose timeframe is outside the
fixed enumerated set is rejected with status 400 and no terminal call
(symbol selection or rate fetch) is made. -/
theorem C8_invalid_timeframe (env : HistoryEnv) (symbol timeframe : String) (limit : Nat)
    (hc : env.connected = true)
    (ht : timeframe ∉ ["M1", "M2", "M3", "M5", "M10", "M15", "M30", "H1", "H2", "H4",
      "D1", "W1", "MN1"]) :
    get_history env symbol timeframe limit = (.error ⟨400, "Invalid timeframe"⟩, []) := by
  have hkeys : TIMEFRAMES.map Prod.fst =
      ["M1", "M2", "M3", "M5", "M10", "M15", "M30", "H1", "H2", "H4", "D1", "W1", "MN1"] := rfl
  unfold get_history
  rw [hc]
  rw [if_neg (by simp)]
  rw [if_pos (by rw [hkeys]; exact ht)]

/-- Witness for C8 at timeframe "X1". -/
theorem C8_invalid_timeframe_witness :
    get_history wHistoryEnv "EURUSD" "X1" 1000 = (.error ⟨400, "Invalid timeframe"⟩, []) :=
  C8_invalid_timeframe wHistoryEnv "EURUSD" "X1" 1000 rfl (by decide)

/-- C9: when the per-iteration snapshot fetch yields None, the realtime loop
delivers the error frame and continues with the next iteration; the connected
websocket trace never contains a close event. -/
theorem C9_fetch_failure_continues (snapshots : Nat → Option (List Instrument))
    (i fuel : Nat) (h : snapshots i = none) :
    streamFrames snapshots i (fuel + 1) =
      RtFrame.errorFrame "Failed to fetch symbols" [] :: streamFrames snapshots (i + 1) fuel ∧
    (∀ fuel2 c reason, WsEvent.close c reason ∉ websocket_endpoint true snapshots fuel2) := by
  constructor
  · simp [streamFrames, fetch_realtime_data, h]
  · intro fuel2 c reason
    simp [websocket_endpoint]

/-- Witness for C9 at a snapshot stream that always fails. -/
theorem C9_fetch_failure_continues_witness :
    streamFrames (fun _ => none) 0 (3 + 1) =
      RtFrame.errorFrame "Failed to fetch symbols" [] :: streamFrames (fun _ => none) (0 + 1) 3 ∧
    (∀ fuel2 c reason, WsEvent.close c reason ∉ websocket_endpoint true (fun _ => none) fuel2) :=
  C9_fetch_failure_continues (fun _ => none) 0 3 rfl

/-- C10: the quote endpoint ignores the outcome of its first symbol-select:
404 iff the first tick fetch fails and the second select also fails; a failed
select with a successful tick still yields a normal quote; 500 iff the second
select succeeds but the tick re-fetch still fails. -/
theorem C10_quote_select_retry (env : QuoteEnv) (symbol : String)
    (hc : env.market.connected = true) :
    (get_quote env symbol = .error ⟨404, "Symbol not found"⟩ ↔
      env.tick1 = none ∧ env.select2 = false) ∧
    (∀ t, env.select1 = false → env.tick1 = some t →
      get_quote env symbol = .ok (mkQuote env symbol t)) ∧
    (get_quote env symbol = .error ⟨500, "Failed to get tick"⟩ ↔
      env.tick1 = none ∧ env.select2 = true ∧ env.tick2 = none) ∧
    (∀ b, get_quote { env with select1 := b } symbol = get_quote env symbol) := by
  have hred : ∀ P : Except HErr QuoteResponse → Prop, P (get_quote env symbol) ↔
      P (match env.tick1 with
         | some tick => .ok (mkQuote env symbol tick)
         | none =>
           if env.select2 = false then .error ⟨404, "Symbol not found"⟩
           else
             match env.tick2 with
             | none => .error ⟨500, "Failed to get tick"⟩
             | some tick => .ok (mkQuote env symbol tick)) := by
    intro P
    unfold get_quote
    rw [hc]
    rw [if_neg (by simp)]
  refine ⟨?_, ?_, ?_, fun b => rfl⟩
  · rw [hred (fun x => x = .error ⟨404, "Symbol not found"⟩)]
    cases h1 : env.tick1 with
    | some t => simp
    | none =>
      cases h2 : env.select2 with
      | false => simp
      | true =>
        rw [if_neg (by simp)]
        cases h3 : env.tick2 with
        | some t => simp
        | none => simp
  · intro t hsel htick
    rw [hred (fun x => x = .ok (mkQuote env symbol t)), htick]
  · rw [hred (fun x => x = .error ⟨500, "Failed to get tick"⟩)]
    cases h1 : env.tick1 with
    | some t => simp
    | none =>
      cases h2 : env.select2 with
      | false => simp
      | true =>
        rw [if_neg (by simp)]
        cases h3 : env.tick2 with
        | some t => simp
        | none => simp

/-- Witness for C10 at a concrete environment whose first select fails but
whose first tick fetch succeeds. -/
theorem C10_quote_select_retry_witness :
    (get_quote wQuoteEnv "EURUSD" = .error ⟨404, "Symbol not found"⟩ ↔
      wQuoteEnv.tick1 = none ∧ wQuoteEnv.select2 = false) ∧
    (∀ t, wQuoteEnv.select1 = false → wQuoteEnv.tick1 = some t →
      get_quote wQuoteEnv "EURUSD" = .ok (mkQuote wQuoteEnv "EURUSD" t)) ∧
    (get_quote wQuoteEnv "EURUSD" = .error ⟨500, "Failed to get tick"⟩ ↔
      wQuoteEnv.tick1 = none ∧ wQuoteEnv.select2 = true ∧ wQuoteEnv.tick2 = none) ∧
    (∀ b, get_quote { wQuoteEnv with select1 := b } "EURUSD" = get_quote wQuoteEnv "EURUSD") :=
  C10_quote_select_retry wQuoteEnv "EURUSD" rfl

end RTData
